import Mathlib

/-!
Verification development for the robin batman-adv control-plane client.

The definitions below are a shallow embedding of the Rust sources:

* byte strings (Rust `Vec<u8>`, `&str`, `String`) are `List Nat` with each
  element below 256;
* machine integers are `Nat` (with explicit `% 2 ^ 32` where wrap-around
  matters) and kernel error codes are `Int` (they can be negative);
* a decoded netlink attribute set is an association list from the numeric
  attribute code to the raw payload bytes, mirroring the neli attribute
  handle used by the command modules;
* fallible Rust functions returning `Result<T, RobinError>` become
  `Except RobinError T`.

Each definition names the source item it embeds.
-/

namespace Robin

/-- Error taxonomy of the library, from `src/lib/src/error.rs`.  Every variant
carries a human-readable message string, as in the source. -/
inductive RobinError where
  | Netlink (msg : String)
  | Io (msg : String)
  | Parse (msg : String)
  | NotFound (msg : String)
deriving DecidableEq, Repr

/-- Generic-netlink attribute codes for the batman-adv family, from
`src/src/model/attribute.rs` (the numeric values follow
`linux/uapi/batman_adv.h`).  Only the mapping to the numeric wire code is
behaviour; the enumeration is pure data. -/
inductive Attribute where
  | BatadvAttrUnspec
  | BatadvAttrVersion
  | BatadvAttrAlgoName
  | BatadvAttrMeshIfindex
  | BatadvAttrMeshIfname
  | BatadvAttrMeshAddress
  | BatadvAttrHardIfindex
  | BatadvAttrHardIfname
  | BatadvAttrHardAddress
  | BatadvAttrOrigAddress
  | BatadvAttrTpMeterResult
  | BatadvAttrTpMeterTestTime
  | BatadvAttrTpMeterBytes
  | BatadvAttrTpMeterCookie
  | BatadvAttrPad
  | BatadvAttrActive
  | BatadvAttrTtAddress
  | BatadvAttrTtTtvn
  | BatadvAttrTtLastTtvn
  | BatadvAttrTtCrc32
  | BatadvAttrTtVid
  | BatadvAttrTtFlags
  | BatadvAttrFlagBest
  | BatadvAttrLastSeenMsecs
  | BatadvAttrNeighAddress
  | BatadvAttrTq
  | BatadvAttrThroughput
  | BatadvAttrBandwidthUp
  | BatadvAttrBandwidthDown
  | BatadvAttrRouter
  | BatadvAttrGwBandwidthDown
  | BatadvAttrGwBandwidthUp
  | BatadvAttrGwMode
  | BatadvAttrGwSelClass
deriving DecidableEq, Repr

/-- Numeric wire code of an attribute (`impl From<Attribute> for u16` together
with the discriminant values assigned in `src/src/model/attribute.rs`). -/
def attrCode : Attribute → Nat
  | .BatadvAttrUnspec => 0
  | .BatadvAttrVersion => 1
  | .BatadvAttrAlgoName => 2
  | .BatadvAttrMeshIfindex => 3
  | .BatadvAttrMeshIfname => 4
  | .BatadvAttrMeshAddress => 5
  | .BatadvAttrHardIfindex => 6
  | .BatadvAttrHardIfname => 7
  | .BatadvAttrHardAddress => 8
  | .BatadvAttrOrigAddress => 9
  | .BatadvAttrTpMeterResult => 10
  | .BatadvAttrTpMeterTestTime => 11
  | .BatadvAttrTpMeterBytes => 12
  | .BatadvAttrTpMeterCookie => 13
  | .BatadvAttrPad => 14
  | .BatadvAttrActive => 15
  | .BatadvAttrTtAddress => 16
  | .BatadvAttrTtTtvn => 17
  | .BatadvAttrTtLastTtvn => 18
  | .BatadvAttrTtCrc32 => 19
  | .BatadvAttrTtVid => 20
  | .BatadvAttrTtFlags => 21
  | .BatadvAttrFlagBest => 22
  | .BatadvAttrLastSeenMsecs => 23
  | .BatadvAttrNeighAddress => 24
  | .BatadvAttrTq => 25
  | .BatadvAttrThroughput => 26
  | .BatadvAttrBandwidthUp => 27
  | .BatadvAttrBandwidthDown => 28
  | .BatadvAttrRouter => 29
  | .BatadvAttrGwBandwidthDown => 49
  | .BatadvAttrGwBandwidthUp => 50
  | .BatadvAttrGwMode => 51
  | .BatadvAttrGwSelClass => 52

/-- A decoded receive-side attribute set: numeric attribute code paired with
the raw payload bytes, in message order.  This models the neli attribute
handle obtained via `attrs().get_attr_handle()` in the command modules. -/
abbrev AttrSet : Type := List (Nat × List Nat)

/-- Lookup of the first attribute with a given code, as the neli handle does. -/
def findAttr (attrs : AttrSet) (code : Nat) : Option (List Nat) :=
  (attrs.find? (fun p => p.1 == code)).map (fun p => p.2)

/-- Models `get_attr_payload_as::<u8>`: succeeds exactly when the attribute is
present with a one-byte payload. -/
def getU8 (attrs : AttrSet) (code : Nat) : Option Nat :=
  match findAttr attrs code with
  | some [b] => some b
  | _ => none

/-- Models `get_attr_payload_as::<u16>`: present with a two-byte
(little-endian) payload. -/
def getU16 (attrs : AttrSet) (code : Nat) : Option Nat :=
  match findAttr attrs code with
  | some [b0, b1] => some (b0 + 256 * b1)
  | _ => none

/-- Models `get_attr_payload_as::<u32>`: present with a four-byte
(little-endian) payload. -/
def getU32 (attrs : AttrSet) (code : Nat) : Option Nat :=
  match findAttr attrs code with
  | some [b0, b1, b2, b3] => some (b0 + 256 * b1 + 65536 * b2 + 16777216 * b3)
  | _ => none

/-- Models `get_attr_payload_as::<[u8; N]>`: present with a payload of exactly
`n` bytes, returned verbatim. -/
def getBytes (attrs : AttrSet) (code : Nat) (n : Nat) : Option (List Nat) :=
  match findAttr attrs code with
  | some b => if b.length = n then some b else none
  | none => none

/-- Null-trimming of fixed-size byte arrays: take the bytes up to the first
zero byte, or the whole array when no zero byte occurs.  This models the
repeated source idiom `position(|b| b == 0).unwrap_or(len)` followed by a
slice, for example in `get_algoname_netlink`
(`src/lib/src/commands/utils.rs`). -/
def trimNul (b : List Nat) : List Nat :=
  b.takeWhile (fun x => x != 0)

/-- Response envelopes as classified by the dump loops: a DATA message with a
decoded attribute set, a DONE terminator, an ERROR message with its embedded
numeric code, or an ERROR-typed message whose payload is not an error payload
(the wildcard branch of the source match). -/
inductive Envelope where
  | Data (attrs : AttrSet)
  | Done
  | Error (code : Int)
  | ErrorBadPayload
deriving Repr

/-- Message text built by the dump loops for a nonzero kernel error code. -/
def netlinkErrMsg (e : Int) : String :=
  "netlink error " ++ toString e

/-- The dump-consumption loop shared verbatim by every dump-style query
(`get_originators`, `get_neighbors`, `get_gateways_list`, `get_transglobal`,
`get_translocal`, `get_interfaces`): DONE ends the loop successfully, an ERROR
with code zero ends the loop successfully, an ERROR with a nonzero code aborts
the whole operation, a malformed ERROR payload aborts, and a DATA envelope is
handed to the entity extractor and its result appended. -/
def processDump {α : Type} (extract : AttrSet → Except RobinError α) :
    List Envelope → Except RobinError (List α)
  | [] => .ok []
  | .Done :: _ => .ok []
  | .Error e :: _ =>
      if e = 0 then .ok [] else .error (.Netlink (netlinkErrMsg e))
  | .ErrorBadPayload :: _ => .error (.Netlink "unknown netlink error payload")
  | .Data attrs :: rest => do
      let x ← extract attrs
      let xs ← processDump extract rest
      pure (x :: xs)

/-- Specification-side helper: decode every attribute set of a list with the
given extractor, in order, failing on the first failure.  Used to phrase what
"the entities decoded from the DATA envelopes" means. -/
def extractAll {α : Type} (extract : AttrSet → Except RobinError α) :
    List AttrSet → Except RobinError (List α)
  | [] => .ok []
  | a :: rest => do
      let x ← extract a
      let xs ← extractAll extract rest
      pure (x :: xs)

theorem processDump_append_data {α : Type}
    (extract : AttrSet → Except RobinError α)
    (datas : List AttrSet) (es : List α) (tail : List Envelope)
    (hdec : extractAll extract datas = .ok es) :
    processDump extract (datas.map Envelope.Data ++ tail) =
      (do
        let xs ← processDump extract tail
        pure (es ++ xs)) := by
  induction datas generalizing es with
  | nil =>
      simp [extractAll] at hdec
      subst hdec
      simp
  | cons a rest ih =>
      simp only [extractAll, bind, Except.bind] at hdec
      cases ha : extract a with
      | error err => rw [ha] at hdec; exact absurd hdec (by simp)
      | ok x =>
          rw [ha] at hdec
          cases hrest : extractAll extract rest with
          | error err => rw [hrest] at hdec; exact absurd hdec (by simp [pure, Except.pure])
          | ok xs =>
              rw [hrest] at hdec
              simp only [pure, Except.pure, Except.ok.injEq] at hdec
              subst hdec
              have h2 := ih xs hrest
              cases h : processDump extract tail with
              | error err =>
                  simp only [h, bind, Except.bind, pure, Except.pure] at h2
                  simp [List.map_cons, processDump, ha, h2, bind, Except.bind, h]
              | ok ys =>
                  simp only [h, bind, Except.bind, pure, Except.pure] at h2
                  simp [List.map_cons, processDump, ha, h2, bind, Except.bind, h,
                    pure, Except.pure]

/-- Gateway operating mode, from `src/lib/src/model/gateway.rs`. -/
inductive GwMode where
  | Off
  | Client
  | Server
  | Unknown
deriving DecidableEq, Repr

/-- Originator record as assembled by `get_originators`
(`src/lib/src/commands/originators.rs`).  MAC addresses and interface names
are byte lists. -/
structure Originator where
  originator : List Nat
  next_hop : List Nat
  outgoing_if : List Nat
  last_seen_ms : Nat
  tq : Option Nat
  throughput : Option Nat
  is_best : Bool
deriving DecidableEq, Repr

/-- Neighbor record, from `src/lib/src/model/neighbor.rs` as assembled by
`get_neighbors`. -/
structure Neighbor where
  neigh : List Nat
  outgoing_if : List Nat
  last_seen_ms : Nat
  throughput_kbps : Option Nat
deriving DecidableEq, Repr

/-- Gateway record, from `src/lib/src/model/gateway.rs` as assembled by
`get_gateways_list`. -/
structure Gateway where
  mac_addr : List Nat
  router : List Nat
  outgoing_if : List Nat
  bandwidth_down : Option Nat
  bandwidth_up : Option Nat
  throughput : Option Nat
  tq : Option Nat
  is_best : Bool
deriving DecidableEq, Repr

/-- Global translation-table entry, from `src/lib/src/model/transtable.rs` as
assembled by `get_transglobal`.  The flag bitset is kept as its numeric
value. -/
structure TransglobalEntry where
  client : List Nat
  orig : List Nat
  vid : Nat
  ttvn : Nat
  last_ttvn : Nat
  flags : Nat
  crc32 : Nat
  is_best : Bool
deriving DecidableEq, Repr

/-- Local translation-table entry, from `src/lib/src/model/transtable.rs` as
assembled by `get_translocal`. -/
structure TranslocalEntry where
  client : List Nat
  vid : Nat
  flags : Nat
  crc32 : Nat
  last_seen_secs : Nat
  last_seen_msecs : Nat
deriving DecidableEq, Repr

/-- Gateway configuration record, from `src/lib/src/model/gateway.rs`
(`GatewayInfo`): mode, selection class, both bandwidths and the algorithm
name; none of the last four fields is optional in the model. -/
structure GatewayInfo where
  mode : GwMode
  sel_class : Nat
  bandwidth_down : Nat
  bandwidth_up : Nat
  algo : List Nat
deriving DecidableEq, Repr

/-- Mask of the defined client-flag bits, from the `bitflags!` block in
`src/lib/src/model/client_flag.rs`: DEL, ROAM, WIFI, ISOLA, NOPURGE, NEW,
PENDING, TEMP. -/
def clientFlagsMask : Nat := 1 + 2 + 16 + 32 + 256 + 512 + 1024 + 2048

/-- Models `ClientFlags::from_bits_truncate`: keep only the defined bits. -/
def clientFlagsFromBitsTruncate (v : Nat) : Nat := v &&& clientFlagsMask

/-- A resolver for the interface-index to interface-name lookup performed by
`if_indextoname` / `ifindex_to_name`; the lookup runs its own route-netlink
dump, so the extractors take it as a parameter. -/
abbrev IfResolver : Type := Nat → Except RobinError (List Nat)

/-- Entity extractor of `get_originators`
(`src/lib/src/commands/originators.rs` lines 80 to 136): originator MAC,
next-hop MAC, interface name with index fallback and last-seen age are
mandatory; TQ and throughput are optional; the best flag is presence of the
ROUTER attribute read as a one-byte payload. -/
def extract_originator (resolve : IfResolver) (attrs : AttrSet) :
    Except RobinError Originator := do
  let orig ← match getBytes attrs (attrCode .BatadvAttrOrigAddress) 6 with
    | some b => Except.ok b
    | none => Except.error (.Parse "Missing ORIG_ADDRESS")
  let neigh ← match getBytes attrs (attrCode .BatadvAttrNeighAddress) 6 with
    | some b => Except.ok b
    | none => Except.error (.Parse "Missing NEIGH_ADDRESS")
  let ifname ← match getBytes attrs (attrCode .BatadvAttrHardIfname) 16 with
    | some bytes => Except.ok (trimNul bytes)
    | none =>
        match getU32 attrs (attrCode .BatadvAttrHardIfindex) with
        | none => Except.error (.Parse "Missing HARD_IFINDEX")
        | some ifindex =>
            match resolve ifindex with
            | .ok name => Except.ok name
            | .error _ => Except.error (.Netlink "Failed to get ifname from ifindex")
  let lastSeen ← match getU32 attrs (attrCode .BatadvAttrLastSeenMsecs) with
    | some v => Except.ok v
    | none => Except.error (.Parse "Missing LAST_SEEN")
  let tq := getU8 attrs (attrCode .BatadvAttrTq)
  let tp := getU32 attrs (attrCode .BatadvAttrThroughput)
  let best := (getU8 attrs (attrCode .BatadvAttrRouter)).isSome
  Except.ok { originator := orig, next_hop := neigh, outgoing_if := ifname,
              last_seen_ms := lastSeen, tq := tq, throughput := tp,
              is_best := best }

/-- Entity extractor of `get_neighbors` (`src/lib/src/commands/neighbors.rs`
lines 100 to 136): neighbor MAC and last-seen age are mandatory, the
interface name falls back to an index lookup, throughput is optional. -/
def extract_neighbor (resolve : IfResolver) (attrs : AttrSet) :
    Except RobinError Neighbor := do
  let neigh ← match getBytes attrs (attrCode .BatadvAttrNeighAddress) 6 with
    | some b => Except.ok b
    | none => Except.error (.Parse "Error - missing NEIGH_ADDRESS")
  let lastSeen ← match getU32 attrs (attrCode .BatadvAttrLastSeenMsecs) with
    | some v => Except.ok v
    | none => Except.error (.Parse "Error - missing LAST_SEEN_MSECS")
  let ifname ← match getBytes attrs (attrCode .BatadvAttrHardIfname) 16 with
    | some bytes => Except.ok (trimNul bytes)
    | none =>
        match getU32 attrs (attrCode .BatadvAttrHardIfindex) with
        | none => Except.error (.Parse "Error - missing HARD_IFINDEX")
        | some ifindex =>
            match resolve ifindex with
            | .ok name => Except.ok name
            | .error _ => Except.error (.Netlink "Error - failed to resolve interface index")
  let tp := getU32 attrs (attrCode .BatadvAttrThroughput)
  Except.ok { neigh := neigh, outgoing_if := ifname, last_seen_ms := lastSeen,
              throughput_kbps := tp }

/-- Entity extractor of `get_gateways_list`
(`src/lib/src/commands/gateways.rs` lines 71 to 123): the best flag is
presence of the dedicated FLAG_BEST attribute read as a one-byte payload;
originator MAC, router MAC and interface name are mandatory; both bandwidths,
throughput and TQ are optional. -/
def extract_gateway (resolve : IfResolver) (attrs : AttrSet) :
    Except RobinError Gateway := do
  let best := (getU8 attrs (attrCode .BatadvAttrFlagBest)).isSome
  let mac ← match getBytes attrs (attrCode .BatadvAttrOrigAddress) 6 with
    | some b => Except.ok b
    | none => Except.error (.Parse "Missing ORIG_ADDRESS")
  let router ← match getBytes attrs (attrCode .BatadvAttrRouter) 6 with
    | some b => Except.ok b
    | none => Except.error (.Parse "Missing ROUTER")
  let ifname ← match getBytes attrs (attrCode .BatadvAttrHardIfname) 16 with
    | some bytes => Except.ok (trimNul bytes)
    | none =>
        match getU32 attrs (attrCode .BatadvAttrHardIfindex) with
        | none => Except.error (.Parse "Missing HARD_IFINDEX")
        | some ifindex =>
            match resolve ifindex with
            | .ok name => Except.ok name
            | .error _ => Except.error (.Netlink "Failed to get ifname from ifindex")
  let bdown := getU32 attrs (attrCode .BatadvAttrBandwidthDown)
  let bup := getU32 attrs (attrCode .BatadvAttrBandwidthUp)
  let tp := getU32 attrs (attrCode .BatadvAttrThroughput)
  let tq := getU8 attrs (attrCode .BatadvAttrTq)
  Except.ok { mac_addr := mac, router := router, outgoing_if := ifname,
              bandwidth_down := bdown, bandwidth_up := bup, throughput := tp,
              tq := tq, is_best := best }

/-- Entity extractor of `get_transglobal`
(`src/lib/src/commands/transglobal.rs` lines 73 to 109): client MAC,
originator MAC, VLAN id, both table versions, CRC32 and flags are mandatory;
the best flag is presence of the ROUTER attribute read as a one-byte
payload. -/
def extract_transglobal (attrs : AttrSet) : Except RobinError TransglobalEntry := do
  let client ← match getBytes attrs (attrCode .BatadvAttrTtAddress) 6 with
    | some b => Except.ok b
    | none => Except.error (.Parse "Missing TT_ADDRESS")
  let orig ← match getBytes attrs (attrCode .BatadvAttrOrigAddress) 6 with
    | some b => Except.ok b
    | none => Except.error (.Parse "Missing ORIG_ADDRESS")
  let vid ← match getU16 attrs (attrCode .BatadvAttrTtVid) with
    | some v => Except.ok v
    | none => Except.error (.Parse "Missing TT_VID")
  let ttvn ← match getU8 attrs (attrCode .BatadvAttrTtTtvn) with
    | some v => Except.ok v
    | none => Except.error (.Parse "Missing TT_TTVN")
  let lastTtvn ← match getU8 attrs (attrCode .BatadvAttrTtLastTtvn) with
    | some v => Except.ok v
    | none => Except.error (.Parse "Missing TT_LAST_TTVN")
  let crc32 ← match getU32 attrs (attrCode .BatadvAttrTtCrc32) with
    | some v => Except.ok v
    | none => Except.error (.Parse "Missing TT_CRC32")
  let flags ← match getU32 attrs (attrCode .BatadvAttrTtFlags) with
    | some v => Except.ok v
    | none => Except.error (.Parse "Missing TT_FLAGS")
  let best := (getU8 attrs (attrCode .BatadvAttrRouter)).isSome
  Except.ok { client := client, orig := orig, vid := vid, ttvn := ttvn,
              last_ttvn := lastTtvn, flags := flags, crc32 := crc32,
              is_best := best }

/-- Entity extractor of `get_translocal`
(`src/lib/src/commands/translocal.rs` lines 68 to 95): client MAC, VLAN id,
CRC32 and flags are mandatory; the last-seen age is read from
LAST_SEEN_MSECS and split into whole seconds and residual milliseconds, and
when the attribute is absent both parts default to zero. -/
def extract_translocal (attrs : AttrSet) : Except RobinError TranslocalEntry := do
  let client ← match getBytes attrs (attrCode .BatadvAttrTtAddress) 6 with
    | some b => Except.ok b
    | none => Except.error (.Parse "Missing TT_ADDRESS")
  let vid ← match getU16 attrs (attrCode .BatadvAttrTtVid) with
    | some v => Except.ok v
    | none => Except.error (.Parse "Missing TT_VID")
  let crc32 ← match getU32 attrs (attrCode .BatadvAttrTtCrc32) with
    | some v => Except.ok v
    | none => Except.error (.Parse "Missing TT_CRC32")
  let rawFlags ← match getU32 attrs (attrCode .BatadvAttrTtFlags) with
    | some v => Except.ok v
    | none => Except.error (.Parse "Missing TT_FLAGS")
  let flags := clientFlagsFromBitsTruncate rawFlags
  let lastSeen :=
    match getU32 attrs (attrCode .BatadvAttrLastSeenMsecs) with
    | some ms => (ms / 1000, ms % 1000)
    | none => (0, 0)
  Except.ok { client := client, vid := vid, flags := flags, crc32 := crc32,
              last_seen_secs := lastSeen.1, last_seen_msecs := lastSeen.2 }

/-- The originators dump operation is the shared dump loop instantiated with
the originator extractor. -/
def get_originators_dump (resolve : IfResolver) (msgs : List Envelope) :
    Except RobinError (List Originator) :=
  processDump (extract_originator resolve) msgs

/-- The neighbors dump operation is the shared dump loop instantiated with
the neighbor extractor. -/
def get_neighbors_dump (resolve : IfResolver) (msgs : List Envelope) :
    Except RobinError (List Neighbor) :=
  processDump (extract_neighbor resolve) msgs

/-- The gateways dump operation is the shared dump loop instantiated with the
gateway extractor. -/
def get_gateways_list_dump (resolve : IfResolver) (msgs : List Envelope) :
    Except RobinError (List Gateway) :=
  processDump (extract_gateway resolve) msgs

/-- The global translation-table dump operation is the shared dump loop
instantiated with the global translation-table extractor. -/
def get_transglobal_dump (msgs : List Envelope) :
    Except RobinError (List TransglobalEntry) :=
  processDump extract_transglobal msgs

/-- The local translation-table dump operation is the shared dump loop
instantiated with the local translation-table extractor. -/
def get_translocal_dump (msgs : List Envelope) :
    Except RobinError (List TranslocalEntry) :=
  processDump extract_translocal msgs

/-- C1: for every dump-style query, a response of DATA envelopes followed by
DONE, or by ERROR with embedded code zero, yields exactly the entities
decoded from the DATA envelopes in order; a response of the same DATA
envelopes followed by ERROR with a nonzero code yields a transport error
carrying that code and none of the already-decoded entities. -/
theorem dump_termination {α : Type} (extract : AttrSet → Except RobinError α)
    (datas : List AttrSet) (es : List α) (e : Int)
    (hdec : extractAll extract datas = .ok es) (hne : e ≠ 0) :
    processDump extract (datas.map Envelope.Data ++ [Envelope.Done]) = .ok es ∧
    processDump extract (datas.map Envelope.Data ++ [Envelope.Error 0]) = .ok es ∧
    processDump extract (datas.map Envelope.Data ++ [Envelope.Error e]) =
      .error (.Netlink (netlinkErrMsg e)) := by
  refine ⟨?_, ?_, ?_⟩ <;>
    rw [processDump_append_data extract datas es _ hdec] <;>
    simp [processDump, hne, bind, Except.bind, pure, Except.pure]

/-- Witness for C1 at a concrete response: two DATA envelopes followed by
ERROR with code 5 produce the transport error carrying 5. -/
theorem dump_termination_witness :
    processDump (fun attrs : AttrSet => Except.ok attrs.length)
        ([[(1, [7])], []].map Envelope.Data ++ [Envelope.Error 5]) =
      .error (.Netlink (netlinkErrMsg 5)) :=
  (dump_termination (fun attrs : AttrSet => Except.ok attrs.length)
    [[(1, [7])], []] [1, 0] 5 rfl (by decide)).2.2

/-- Gateway-mode decoding used by `get_gateway`
(`src/lib/src/commands/gw_mode.rs` lines 65 to 71): values 0, 1, 2 map to
Off, Client, Server; any other value and an absent or malformed attribute map
to Unknown, never to a failure. -/
def decodeGwMode (attrs : AttrSet) : GwMode :=
  match getU8 attrs (attrCode .BatadvAttrGwMode) with
  | some 0 => .Off
  | some 1 => .Client
  | some 2 => .Server
  | some _ => .Unknown
  | none => .Unknown

/-- Attribute extraction of `get_gateway` (`src/lib/src/commands/gw_mode.rs`
lines 59 to 100): the mode is decoded leniently, then selection class, both
bandwidths and the algorithm name are all read as mandatory attributes, each
failing with a parse error when absent. -/
def extract_gateway_info (attrs : AttrSet) : Except RobinError GatewayInfo := do
  let mode := decodeGwMode attrs
  let sel ← match getU32 attrs (attrCode .BatadvAttrGwSelClass) with
    | some v => Except.ok v
    | none => Except.error (.Parse "Error - gateway selection class missing")
  let down ← match getU32 attrs (attrCode .BatadvAttrGwBandwidthDown) with
    | some v => Except.ok v
    | none => Except.error (.Parse "Error - gateway downstream bandwidth missing")
  let up ← match getU32 attrs (attrCode .BatadvAttrGwBandwidthUp) with
    | some v => Except.ok v
    | none => Except.error (.Parse "Error - gateway upstream bandwidth missing")
  let algo ← match findAttr attrs (attrCode .BatadvAttrAlgoName) with
    | some bytes => Except.ok (trimNul bytes)
    | none => Except.error (.Parse "Error - routing algorithm name missing")
  Except.ok { mode := mode, sel_class := sel, bandwidth_down := down,
              bandwidth_up := up, algo := algo }

/-- Resolver stand-in for records that already carry an interface name, so
the index lookup is never consulted. -/
def noResolver : IfResolver := fun _ => .error (.NotFound "no lookup")

/-- Reply record for `get_gateway` whose mode attribute says Server and whose
algorithm name is present, but whose selection-class and bandwidth attributes
are absent. -/
def gwInfoNoSelClassAttrs : AttrSet :=
  [(attrCode .BatadvAttrGwMode, [2]),
   (attrCode .BatadvAttrAlgoName, [66, 65, 84, 77, 65, 78, 95, 73, 86, 0])]

/-- C4 counterexample: on a reply without the selection-class attribute the
get-gateway-mode extraction fails with a parse error instead of succeeding
with an empty optional field, so the claim is false as stated. -/
theorem gateway_info_missing_sel_class_fails :
    findAttr gwInfoNoSelClassAttrs (attrCode .BatadvAttrGwSelClass) = none ∧
    extract_gateway_info gwInfoNoSelClassAttrs =
      .error (.Parse "Error - gateway selection class missing") :=
  ⟨rfl, rfl⟩

/-- C4 amended: the get-gateway-mode query treats only the mode attribute
leniently (absent or unrecognized values decode to Unknown); the selection
class, both bandwidths and the algorithm name are mandatory fields of
`GatewayInfo`, and the extraction fails with a parse error when the
selection-class attribute is absent rather than returning a record without
it. -/
theorem gateway_info_mandatory_fields (attrs : AttrSet)
    (sc d u : Nat) (ab : List Nat)
    (hsc : getU32 attrs (attrCode .BatadvAttrGwSelClass) = some sc)
    (hd : getU32 attrs (attrCode .BatadvAttrGwBandwidthDown) = some d)
    (hu : getU32 attrs (attrCode .BatadvAttrGwBandwidthUp) = some u)
    (hab : findAttr attrs (attrCode .BatadvAttrAlgoName) = some ab) :
    extract_gateway_info attrs =
      .ok { mode := decodeGwMode attrs, sel_class := sc, bandwidth_down := d,
            bandwidth_up := u, algo := trimNul ab } ∧
    (∀ attrs2 : AttrSet,
      getU32 attrs2 (attrCode .BatadvAttrGwSelClass) = none →
      extract_gateway_info attrs2 =
        .error (.Parse "Error - gateway selection class missing")) := by
  constructor
  · simp [extract_gateway_info, hsc, hd, hu, hab, bind, Except.bind, pure, Except.pure]
  · intro attrs2 hnone
    simp [extract_gateway_info, hnone, bind, Except.bind]

/-- Witness for C4 amended at a concrete fully-populated reply record. -/
theorem gateway_info_mandatory_fields_witness :
    extract_gateway_info
        [(attrCode .BatadvAttrGwMode, [1]),
         (attrCode .BatadvAttrGwSelClass, [20, 0, 0, 0]),
         (attrCode .BatadvAttrGwBandwidthDown, [100, 0, 0, 0]),
         (attrCode .BatadvAttrGwBandwidthUp, [20, 0, 0, 0]),
         (attrCode .BatadvAttrAlgoName, [66, 65, 84, 77, 65, 78, 95, 73, 86, 0])] =
      .ok { mode := .Client, sel_class := 20, bandwidth_down := 100,
            bandwidth_up := 20, algo := [66, 65, 84, 77, 65, 78, 95, 73, 86] } :=
  (gateway_info_mandatory_fields
    [(attrCode .BatadvAttrGwMode, [1]),
     (attrCode .BatadvAttrGwSelClass, [20, 0, 0, 0]),
     (attrCode .BatadvAttrGwBandwidthDown, [100, 0, 0, 0]),
     (attrCode .BatadvAttrGwBandwidthUp, [20, 0, 0, 0]),
     (attrCode .BatadvAttrAlgoName, [66, 65, 84, 77, 65, 78, 95, 73, 86, 0])]
    20 100 20
    [66, 65, 84, 77, 65, 78, 95, 73, 86, 0] rfl rfl rfl rfl).1

/-- Local translation-table reply record with every mandatory attribute but
without the last-seen attribute. -/
def translocalNoAgeAttrs : AttrSet :=
  [(attrCode .BatadvAttrTtAddress, [1, 2, 3, 4, 5, 6]),
   (attrCode .BatadvAttrTtVid, [0, 0]),
   (attrCode .BatadvAttrTtCrc32, [0, 0, 0, 0]),
   (attrCode .BatadvAttrTtFlags, [0, 0, 0, 0])]

/-- C5 counterexample: the local translation-table extractor does not treat
the last-seen age as mandatory; with the attribute absent it succeeds and
zero-fills both age fields instead of failing with a parse error, so the
claim is false as stated. -/
theorem translocal_missing_last_seen_zero_filled :
    findAttr translocalNoAgeAttrs (attrCode .BatadvAttrLastSeenMsecs) = none ∧
    extract_translocal translocalNoAgeAttrs =
      .ok { client := [1, 2, 3, 4, 5, 6], vid := 0, flags := 0, crc32 := 0,
            last_seen_secs := 0, last_seen_msecs := 0 } :=
  ⟨rfl, rfl⟩

/-- C5 amended: extractors fail with a parse error naming the first missing
mandatory attribute — for a neighbor the MAC address and then the last-seen
age — but the local translation-table entry is an exception: its last-seen
age is optional, and when the attribute is absent the entry is zero-filled
(zero seconds, zero milliseconds) instead of failing. -/
theorem extractor_missing_mandatory (resolve : IfResolver) (attrs : AttrSet)
    (hmiss : getU32 attrs (attrCode .BatadvAttrLastSeenMsecs) = none) :
    (getBytes attrs (attrCode .BatadvAttrNeighAddress) 6 = none →
      extract_neighbor resolve attrs =
        .error (.Parse "Error - missing NEIGH_ADDRESS")) ∧
    (∀ b, getBytes attrs (attrCode .BatadvAttrNeighAddress) 6 = some b →
      extract_neighbor resolve attrs =
        .error (.Parse "Error - missing LAST_SEEN_MSECS")) ∧
    (∀ ent, extract_translocal attrs = .ok ent →
      ent.last_seen_secs = 0 ∧ ent.last_seen_msecs = 0) := by
  refine ⟨?_, ?_, ?_⟩
  · intro hna
    simp [extract_neighbor, hna, bind, Except.bind]
  · intro b hb
    simp [extract_neighbor, hb, hmiss, bind, Except.bind]
  · intro ent hok
    simp only [extract_translocal, hmiss, bind, Except.bind] at hok
    cases h1 : getBytes attrs (attrCode .BatadvAttrTtAddress) 6 with
    | none => rw [h1] at hok; exact absurd hok (by simp)
    | some client =>
      rw [h1] at hok
      cases h2 : getU16 attrs (attrCode .BatadvAttrTtVid) with
      | none => rw [h2] at hok; exact absurd hok (by simp)
      | some vid =>
        rw [h2] at hok
        cases h3 : getU32 attrs (attrCode .BatadvAttrTtCrc32) with
        | none => rw [h3] at hok; exact absurd hok (by simp)
        | some crc =>
          rw [h3] at hok
          cases h4 : getU32 attrs (attrCode .BatadvAttrTtFlags) with
          | none => rw [h4] at hok; exact absurd hok (by simp)
          | some fl =>
            rw [h4] at hok
            simp only [Except.ok.injEq] at hok
            subst hok
            exact ⟨rfl, rfl⟩

/-- Witness for C5 amended at a concrete record: a neighbor record carrying
only a neighbor MAC fails naming the last-seen attribute. -/
theorem extractor_missing_mandatory_witness :
    extract_neighbor noResolver
        [(attrCode .BatadvAttrNeighAddress, [1, 2, 3, 4, 5, 6])] =
      .error (.Parse "Error - missing LAST_SEEN_MSECS") :=
  (extractor_missing_mandatory noResolver
    [(attrCode .BatadvAttrNeighAddress, [1, 2, 3, 4, 5, 6])] rfl).2.1
    [1, 2, 3, 4, 5, 6] rfl

/-- Originator reply record that carries the dedicated best-flag attribute
but no router attribute, together with every mandatory originator
attribute. -/
def origBestFlagAttrs : AttrSet :=
  [(attrCode .BatadvAttrOrigAddress, [1, 2, 3, 4, 5, 6]),
   (attrCode .BatadvAttrNeighAddress, [7, 8, 9, 10, 11, 12]),
   (attrCode .BatadvAttrHardIfname,
     [101, 116, 104, 48, 0, 0, 0, 0, 0, 0, 0, 0, 0, 0, 0, 0]),
   (attrCode .BatadvAttrLastSeenMsecs, [100, 0, 0, 0]),
   (attrCode .BatadvAttrFlagBest, [1])]

/-- C6 counterexample: the originator extractor ignores the dedicated
best-flag attribute; on a record where that attribute is present (and the
router attribute absent) the produced best flag is false, so the claim is
false as stated for originators. -/
theorem originator_best_flag_ignores_flag_best :
    findAttr origBestFlagAttrs (attrCode .BatadvAttrFlagBest) = some [1] ∧
    extract_originator noResolver origBestFlagAttrs =
      .ok { originator := [1, 2, 3, 4, 5, 6], next_hop := [7, 8, 9, 10, 11, 12],
            outgoing_if := [101, 116, 104, 48], last_seen_ms := 100,
            tq := none, throughput := none, is_best := false } :=
  ⟨rfl, rfl⟩

/-- C6 amended: the best-route flag is derived from attribute presence, never
from a payload value, but the checked attribute differs by extractor: the
gateway extractor checks the dedicated best-flag attribute while the
originator and global translation-table extractors check the router
attribute. -/
theorem best_flag_from_presence (resolve : IfResolver) (attrs : AttrSet) :
    (∀ g, extract_gateway resolve attrs = .ok g →
        g.is_best = (getU8 attrs (attrCode .BatadvAttrFlagBest)).isSome) ∧
    (∀ o, extract_originator resolve attrs = .ok o →
        o.is_best = (getU8 attrs (attrCode .BatadvAttrRouter)).isSome) ∧
    (∀ t, extract_transglobal attrs = .ok t →
        t.is_best = (getU8 attrs (attrCode .BatadvAttrRouter)).isSome) := by
  refine ⟨?_, ?_, ?_⟩
  · intro g hok
    simp only [extract_gateway, bind, Except.bind] at hok
    repeat' split at hok
    all_goals first
      | (simp only [Except.ok.injEq] at hok; subst hok; rfl)
      | exact absurd hok (by simp)
  · intro o hok
    simp only [extract_originator, bind, Except.bind] at hok
    repeat' split at hok
    all_goals first
      | (simp only [Except.ok.injEq] at hok; subst hok; rfl)
      | exact absurd hok (by simp)
  · intro t hok
    simp only [extract_transglobal, bind, Except.bind] at hok
    repeat' split at hok
    all_goals first
      | (simp only [Except.ok.injEq] at hok; subst hok; rfl)
      | exact absurd hok (by simp)

/-- Witness for C6 amended at the concrete originator record above. -/
theorem best_flag_from_presence_witness :
    Originator.is_best
        { originator := [1, 2, 3, 4, 5, 6], next_hop := [7, 8, 9, 10, 11, 12],
          outgoing_if := [101, 116, 104, 48], last_seen_ms := 100,
          tq := none, throughput := none, is_best := false } =
      (getU8 origBestFlagAttrs (attrCode .BatadvAttrRouter)).isSome :=
  (best_flag_from_presence noResolver origBestFlagAttrs).2.1 _ rfl

/-- Send-side attribute values, from `AttrValueForSend` in
`src/lib/src/model/mod.rs`.  Strings are their UTF-8 bytes. -/
inductive AttrValueForSend where
  | U8 (v : Nat)
  | U16 (v : Nat)
  | U32 (v : Nat)
  | Bytes (b : List Nat)
  | String (s : List Nat)
deriving DecidableEq, Repr

/-- Attribute list built by `set_gateway` (`src/lib/src/commands/gw_mode.rs`
lines 126 to 204): the mesh-interface index first, then per mode: Off adds
only the mode attribute with value 0; Client adds only the mode attribute
with value 1; Server adds the mode attribute with value 2, the down- and
up-bandwidth each integer-divided by 100 (defaulting to 10000 and 2000
kbit/s) and the selection class defaulting to 0; Unknown is rejected with a
parse error. -/
def set_gateway_attrs (mode : GwMode) (down up sel_class : Option Nat)
    (ifindex : Nat) : Except RobinError (List (Attribute × AttrValueForSend)) :=
  let base : List (Attribute × AttrValueForSend) :=
    [(.BatadvAttrMeshIfindex, .U32 ifindex)]
  match mode with
  | .Off => .ok (base ++ [(.BatadvAttrGwMode, .U8 0)])
  | .Client => .ok (base ++ [(.BatadvAttrGwMode, .U8 1)])
  | .Server =>
      .ok (base ++
        [(.BatadvAttrGwMode, .U8 2),
         (.BatadvAttrGwBandwidthDown, .U32 (down.getD 10000 / 100)),
         (.BatadvAttrGwBandwidthUp, .U32 (up.getD 2000 / 100)),
         (.BatadvAttrGwSelClass, .U32 (sel_class.getD 0))])
  | .Unknown => .error (.Parse "Cannot set unknown gateway mode")

/-- Attribute list of a successful build, empty on failure. -/
def builtAttrs (r : Except RobinError (List (Attribute × AttrValueForSend))) :
    List (Attribute × AttrValueForSend) :=
  match r with
  | .ok l => l
  | .error _ => []

/-- Whether a built attribute list carries an attribute with the given
code. -/
def sendsAttr (l : List (Attribute × AttrValueForSend)) (a : Attribute) : Bool :=
  l.any (fun p => p.1 == a)

/-- C2 counterexample: in Client mode `set_gateway` succeeds but sends no
selection-class attribute even when a selection class was supplied, so the
claim is false as stated. -/
theorem set_gateway_client_no_sel_class :
    (set_gateway_attrs .Client none none (some 3) 7).isOk = true ∧
    sendsAttr (builtAttrs (set_gateway_attrs .Client none none (some 3) 7))
        .BatadvAttrGwSelClass = false :=
  ⟨rfl, rfl⟩

/-- C2 amended: besides the mesh-interface attribute, Off and Client modes
send only the mode attribute; Server mode additionally sends down- and
up-bandwidth attributes, each the kbit/s value (defaulting to 10000 and
2000) integer-divided by 100 into the kernel bandwidth unit, and a
selection-class attribute defaulting to zero. -/
theorem set_gateway_payload_by_mode (down up sel : Option Nat) (ifindex : Nat) :
    set_gateway_attrs .Off down up sel ifindex =
      .ok [(.BatadvAttrMeshIfindex, .U32 ifindex), (.BatadvAttrGwMode, .U8 0)] ∧
    set_gateway_attrs .Client down up sel ifindex =
      .ok [(.BatadvAttrMeshIfindex, .U32 ifindex), (.BatadvAttrGwMode, .U8 1)] ∧
    set_gateway_attrs .Server down up sel ifindex =
      .ok [(.BatadvAttrMeshIfindex, .U32 ifindex), (.BatadvAttrGwMode, .U8 2),
           (.BatadvAttrGwBandwidthDown, .U32 (down.getD 10000 / 100)),
           (.BatadvAttrGwBandwidthUp, .U32 (up.getD 2000 / 100)),
           (.BatadvAttrGwSelClass, .U32 (sel.getD 0))] :=
  ⟨rfl, rfl, rfl⟩

/-- ASCII digit test, modelling `char::is_ascii_digit` as used through
`str::parse::<u32>`. -/
def isAsciiDigit (c : Nat) : Bool := decide (48 ≤ c ∧ c ≤ 57)

/-- ASCII whitespace test, the ASCII fragment of `char::is_whitespace` used
by `str::trim` (all inputs of interest are ASCII). -/
def isAsciiWhitespace (c : Nat) : Bool := decide (c = 32 ∨ (9 ≤ c ∧ c ≤ 13))

/-- ASCII lowercasing of one byte, the ASCII fragment of
`str::to_lowercase`. -/
def asciiLower (c : Nat) : Nat := if 65 ≤ c ∧ c ≤ 90 then c + 32 else c

/-- Models `str::trim`: drop whitespace from both ends. -/
def trimBytes (s : List Nat) : List Nat :=
  ((s.dropWhile isAsciiWhitespace).reverse.dropWhile isAsciiWhitespace).reverse

/-- Value of a decimal digit string. -/
def digitsToNat (ds : List Nat) : Nat :=
  ds.foldl (fun a c => a * 10 + (c - 48)) 0

/-- Models `str::parse::<u32>`: an optional leading plus sign, then one or
more decimal digits, with the value required to fit in 32 bits. -/
def parseU32 (s : List Nat) : Option Nat :=
  let ds := if s.headD 0 = 43 then s.tail else s
  if ds.isEmpty then none
  else if ds.all isAsciiDigit then
    if digitsToNat ds < 4294967296 then some (digitsToNat ds) else none
  else none

/-- Models `str::ends_with` on byte strings. -/
def endsWithBytes (s pat : List Nat) : Bool :=
  decide (pat.length ≤ s.length ∧ s.drop (s.length - pat.length) = pat)

/-- Fuel-indexed loop of `str::trim_end_matches`: repeatedly remove the
pattern from the end while it is a suffix. -/
def trimEndLoop (fuel : Nat) (s pat : List Nat) : List Nat :=
  match fuel with
  | 0 => s
  | f + 1 =>
      if endsWithBytes s pat && !pat.isEmpty then
        trimEndLoop f (s.take (s.length - pat.length)) pat
      else s

/-- Models `str::trim_end_matches`; the length of the subject is enough fuel
because every round removes at least one byte. -/
def trimEndMatchesBytes (s pat : List Nat) : List Nat :=
  trimEndLoop s.length s pat

/-- The byte string kbit. -/
def kbitBytes : List Nat := [107, 98, 105, 116]

/-- The byte string mbit. -/
def mbitBytes : List Nat := [109, 98, 105, 116]

/-- The bandwidth-string parser `parse_value` inside `parse_gw_param`
(`src/cli/src/gw_mode.rs` lines 113 to 129): trim and lowercase, then a
kbit suffix is stripped and the number taken as-is, an mbit suffix is
stripped and the number multiplied by 1000 (reduced modulo 2 to the 32,
modelling the u32 wrap-around of a release build), and otherwise the whole
string is parsed as a bare integer. -/
def parse_value (s : List Nat) : Except RobinError Nat :=
  let t := (trimBytes s).map asciiLower
  if endsWithBytes t kbitBytes then
    match parseU32 (trimEndMatchesBytes t kbitBytes) with
    | some v => .ok v
    | none => .error (.Parse "Invalid bandwidth")
  else if endsWithBytes t mbitBytes then
    match parseU32 (trimEndMatchesBytes t mbitBytes) with
    | some v => .ok (v * 1000 % 4294967296)
    | none => .error (.Parse "Invalid bandwidth")
  else
    match parseU32 t with
    | some v => .ok v
    | none => .error (.Parse "Invalid bandwidth")

/-- Models `str::split` with a one-byte separator: at least one part is
always produced. -/
def splitOnByte (sep : Nat) : List Nat → List (List Nat)
  | [] => [[]]
  | c :: rest =>
      let r := splitOnByte sep rest
      if c = sep then [] :: r
      else (c :: r.headD []) :: r.tail

/-- The gateway-parameter parser `parse_gw_param`
(`src/cli/src/gw_mode.rs` lines 102 to 142): Off ignores the parameter,
Client parses a selection class, Server splits on a slash, parses the
down-value, and derives up as down divided by 5 when no up-value was
supplied; Unknown is rejected. -/
def parse_gw_param (mode : GwMode) (param : List Nat) :
    Except RobinError (Option Nat × Option Nat × Option Nat) :=
  match mode with
  | .Off => .ok (none, none, none)
  | .Client =>
      match parseU32 param with
      | some v => .ok (none, none, some v)
      | none => .error (.Parse "Invalid sel_class")
  | .Server => do
      let parts := splitOnByte 47 param
      let down ← parse_value (parts.headD [])
      let up ← match parts[1]? with
        | some u => parse_value u
        | none => Except.ok (down / 5)
      Except.ok (some down, some up, none)
  | .Unknown => .error (.NotFound "Unknown mode")

theorem asciiLower_ws_eq (c : Nat) :
    isAsciiWhitespace (asciiLower c) = isAsciiWhitespace c := by
  unfold asciiLower isAsciiWhitespace
  split
  · simp only [decide_eq_decide]
    omega
  · rfl

theorem asciiLower_idem_char (c : Nat) :
    asciiLower (asciiLower c) = asciiLower c := by
  unfold asciiLower
  by_cases h : 65 ≤ c ∧ c ≤ 90
  · have h2 : ¬(65 ≤ c + 32 ∧ c + 32 ≤ 90) := by omega
    rw [if_pos h, if_neg h2]
  · rw [if_neg h, if_neg h]

theorem map_asciiLower_idem (l : List Nat) :
    (l.map asciiLower).map asciiLower = l.map asciiLower := by
  rw [List.map_map]
  exact List.map_congr_left (fun c _ => asciiLower_idem_char c)

theorem dropWhile_map_lower (l : List Nat) :
    (l.map asciiLower).dropWhile isAsciiWhitespace =
      (l.dropWhile isAsciiWhitespace).map asciiLower := by
  induction l with
  | nil => rfl
  | cons a t ih =>
      simp only [List.map_cons, List.dropWhile_cons, asciiLower_ws_eq a]
      cases h : isAsciiWhitespace a with
      | false => simp
      | true => simpa using ih

theorem trimBytes_map_lower (s : List Nat) :
    trimBytes (s.map asciiLower) = (trimBytes s).map asciiLower := by
  unfold trimBytes
  rw [dropWhile_map_lower, ← List.map_reverse, dropWhile_map_lower,
    ← List.map_reverse]

theorem dropWhile_eq_self_of_all {p : Nat → Bool} {l : List Nat}
    (h : ∀ c ∈ l, p c = false) : l.dropWhile p = l := by
  cases l with
  | nil => rfl
  | cons a t =>
      have := h a (List.mem_cons_self a t)
      simp [List.dropWhile_cons, this]

theorem trimBytes_eq_self {l : List Nat}
    (h : ∀ c ∈ l, isAsciiWhitespace c = false) : trimBytes l = l := by
  unfold trimBytes
  rw [dropWhile_eq_self_of_all h,
    dropWhile_eq_self_of_all (fun c hc => h c (List.mem_reverse.mp hc)),
    List.reverse_reverse]

theorem map_asciiLower_digits {l : List Nat} (h : l.all isAsciiDigit = true) :
    l.map asciiLower = l := by
  induction l with
  | nil => rfl
  | cons a t ih =>
      simp only [List.all_cons, Bool.and_eq_true] at h
      have ha : asciiLower a = a := by
        have := h.1
        simp only [isAsciiDigit, decide_eq_true_eq] at this
        unfold asciiLower
        rw [if_neg (by omega)]
      simp [ha, ih h.2]

theorem digit_not_ws {c : Nat} (h : isAsciiDigit c = true) :
    isAsciiWhitespace c = false := by
  simp only [isAsciiDigit, decide_eq_true_eq] at h
  simp only [isAsciiWhitespace, decide_eq_false_iff_not]
  omega

theorem endsWithBytes_append (ds pat : List Nat) :
    endsWithBytes (ds ++ pat) pat = true := by
  unfold endsWithBytes
  rw [decide_eq_true_eq]
  constructor
  · simp
  · have : (ds ++ pat).length - pat.length = ds.length := by
      simp [List.length_append]
    rw [this, List.drop_left]

theorem endsWithBytes_digits_false {ds pat : List Nat} {x : Nat}
    (hx : x ∈ pat) (hxd : isAsciiDigit x = false)
    (hdig : ds.all isAsciiDigit = true) : endsWithBytes ds pat = false := by
  unfold endsWithBytes
  rw [decide_eq_false_iff_not]
  rintro ⟨hlen, hdrop⟩
  have hxds : x ∈ ds := List.drop_subset _ _ (hdrop ▸ hx)
  have := List.all_eq_true.mp hdig x hxds
  rw [hxd] at this
  exact absurd this (by simp)

theorem trimEndLoop_no_suffix {s pat : List Nat}
    (h : endsWithBytes s pat = false) (fuel : Nat) :
    trimEndLoop fuel s pat = s := by
  cases fuel with
  | zero => rfl
  | succ f => simp [trimEndLoop, h]

theorem trimEndLoop_append {ds pat : List Nat} (hpat : pat ≠ [])
    (hnosuf : endsWithBytes ds pat = false) (f : Nat) :
    trimEndLoop (f + 1) (ds ++ pat) pat = ds := by
  have hcond : (endsWithBytes (ds ++ pat) pat && !pat.isEmpty) = true := by
    rw [endsWithBytes_append]
    cases pat with
    | nil => exact absurd rfl hpat
    | cons a t => rfl
  have htake : (ds ++ pat).take ((ds ++ pat).length - pat.length) = ds := by
    have : (ds ++ pat).length - pat.length = ds.length := by
      simp [List.length_append]
    rw [this, List.take_left]
  simp only [trimEndLoop, hcond, if_true, htake]
  exact trimEndLoop_no_suffix hnosuf f

theorem trimEndMatches_append {ds pat : List Nat} (hpat : pat ≠ [])
    (hnosuf : endsWithBytes ds pat = false) :
    trimEndMatchesBytes (ds ++ pat) pat = ds := by
  unfold trimEndMatchesBytes
  have : (ds ++ pat).length = ds.length + (pat.length - 1) + 1 := by
    cases pat with
    | nil => exact absurd rfl hpat
    | cons a t => simp [List.length_append]; omega
  rw [this]
  exact trimEndLoop_append hpat hnosuf _

theorem parseU32_digits (ds : List Nat) (hne : ds ≠ [])
    (hdig : ds.all isAsciiDigit = true)
    (hlt : digitsToNat ds < 4294967296) :
    parseU32 ds = some (digitsToNat ds) := by
  have hhead : ¬ ds.headD 0 = 43 := by
    cases ds with
    | nil => exact absurd rfl hne
    | cons a t =>
        simp only [List.headD_cons]
        have := List.all_eq_true.mp hdig a (List.mem_cons_self a t)
        simp only [isAsciiDigit, decide_eq_true_eq] at this
        omega
  have hemp : ds.isEmpty = false := by
    cases ds with
    | nil => exact absurd rfl hne
    | cons a t => rfl
  unfold parseU32
  simp only [hhead, if_false, hemp, hdig, hlt, if_true]
  rfl

theorem splitOnByte_no_sep {sep : Nat} {l : List Nat}
    (h : ∀ c ∈ l, c ≠ sep) : splitOnByte sep l = [l] := by
  induction l with
  | nil => rfl
  | cons a t ih =>
      have ha := h a (List.mem_cons_self a t)
      have ht := ih (fun c hc => h c (List.mem_cons_of_mem a hc))
      simp [splitOnByte, ha, ht]

theorem parse_value_map_lower (s : List Nat) :
    parse_value (s.map asciiLower) = parse_value s := by
  have h1 : trimBytes (s.map asciiLower) = (trimBytes s).map asciiLower :=
    trimBytes_map_lower s
  simp only [parse_value, h1, map_asciiLower_idem]

theorem parse_value_digits {ds : List Nat} (hne : ds ≠ [])
    (hdig : ds.all isAsciiDigit = true)
    (hlt : digitsToNat ds < 4294967296) :
    parse_value ds = .ok (digitsToNat ds) := by
  have hnws : ∀ c ∈ ds, isAsciiWhitespace c = false := fun c hc =>
    digit_not_ws (List.all_eq_true.mp hdig c hc)
  have htrim : trimBytes ds = ds := trimBytes_eq_self hnws
  have hlow : ds.map asciiLower = ds := map_asciiLower_digits hdig
  have hkb : endsWithBytes ds kbitBytes = false :=
    endsWithBytes_digits_false (x := 116) (by simp [kbitBytes]) (by decide) hdig
  have hmb : endsWithBytes ds mbitBytes = false :=
    endsWithBytes_digits_false (x := 116) (by simp [mbitBytes]) (by decide) hdig
  simp [parse_value, htrim, hlow, hkb, hmb, parseU32_digits ds hne hdig hlt]

theorem mem_kbit_not_ws {c : Nat} (h : c ∈ kbitBytes) :
    isAsciiWhitespace c = false := by
  simp only [kbitBytes, List.mem_cons, List.not_mem_nil, or_false] at h
  rcases h with rfl | rfl | rfl | rfl <;> decide

theorem mem_mbit_not_ws {c : Nat} (h : c ∈ mbitBytes) :
    isAsciiWhitespace c = false := by
  simp only [mbitBytes, List.mem_cons, List.not_mem_nil, or_false] at h
  rcases h with rfl | rfl | rfl | rfl <;> decide

theorem parse_value_kbit {ds : List Nat} (hne : ds ≠ [])
    (hdig : ds.all isAsciiDigit = true)
    (hlt : digitsToNat ds < 4294967296) :
    parse_value (ds ++ kbitBytes) = .ok (digitsToNat ds) := by
  have hnws : ∀ c ∈ ds ++ kbitBytes, isAsciiWhitespace c = false := by
    intro c hc
    rcases List.mem_append.mp hc with h | h
    · exact digit_not_ws (List.all_eq_true.mp hdig c h)
    · exact mem_kbit_not_ws h
  have htrim : trimBytes (ds ++ kbitBytes) = ds ++ kbitBytes :=
    trimBytes_eq_self hnws
  have hlow : (ds ++ kbitBytes).map asciiLower = ds ++ kbitBytes := by
    rw [List.map_append, map_asciiLower_digits hdig]
    rfl
  have hsuf : endsWithBytes (ds ++ kbitBytes) kbitBytes = true :=
    endsWithBytes_append ds kbitBytes
  have hnosuf : endsWithBytes ds kbitBytes = false :=
    endsWithBytes_digits_false (x := 116) (by simp [kbitBytes]) (by decide) hdig
  have htrimend : trimEndMatchesBytes (ds ++ kbitBytes) kbitBytes = ds :=
    trimEndMatches_append (by decide) hnosuf
  simp [parse_value, htrim, hlow, hsuf, htrimend,
    parseU32_digits ds hne hdig hlt]

theorem parse_value_mbit {ds : List Nat} (hne : ds ≠ [])
    (hdig : ds.all isAsciiDigit = true)
    (hlt : digitsToNat ds < 4294967296)
    (hlt2 : digitsToNat ds * 1000 < 4294967296) :
    parse_value (ds ++ mbitBytes) = .ok (digitsToNat ds * 1000) := by
  have hnws : ∀ c ∈ ds ++ mbitBytes, isAsciiWhitespace c = false := by
    intro c hc
    rcases List.mem_append.mp hc with h | h
    · exact digit_not_ws (List.all_eq_true.mp hdig c h)
    · exact mem_mbit_not_ws h
  have htrim : trimBytes (ds ++ mbitBytes) = ds ++ mbitBytes :=
    trimBytes_eq_self hnws
  have hlow : (ds ++ mbitBytes).map asciiLower = ds ++ mbitBytes := by
    rw [List.map_append, map_asciiLower_digits hdig]
    rfl
  have hkb : endsWithBytes (ds ++ mbitBytes) kbitBytes = false := by
    unfold endsWithBytes
    rw [decide_eq_false_iff_not]
    rintro ⟨hlen, hdrop⟩
    have hl : (ds ++ mbitBytes).length - kbitBytes.length = ds.length := by
      simp [List.length_append, kbitBytes, mbitBytes]
    rw [hl, List.drop_left] at hdrop
    exact absurd hdrop (by decide)
  have hsuf : endsWithBytes (ds ++ mbitBytes) mbitBytes = true :=
    endsWithBytes_append ds mbitBytes
  have hnosuf : endsWithBytes ds mbitBytes = false :=
    endsWithBytes_digits_false (x := 116) (by simp [mbitBytes]) (by decide) hdig
  have htrimend : trimEndMatchesBytes (ds ++ mbitBytes) mbitBytes = ds :=
    trimEndMatches_append (by decide) hnosuf
  simp [parse_value, htrim, hlow, hkb, hsuf, htrimend,
    parseU32_digits ds hne hdig hlt, Nat.mod_eq_of_lt hlt2]

theorem parse_gw_param_server_digits {ds : List Nat} (hne : ds ≠ [])
    (hdig : ds.all isAsciiDigit = true)
    (hlt : digitsToNat ds < 4294967296) :
    parse_gw_param .Server ds =
      .ok (some (digitsToNat ds), some (digitsToNat ds / 5), none) := by
  have hsep : ∀ c ∈ ds, c ≠ 47 := by
    intro c hc
    have := List.all_eq_true.mp hdig c hc
    simp only [isAsciiDigit, decide_eq_true_eq] at this
    omega
  have hsplit : splitOnByte 47 ds = [ds] := splitOnByte_no_sep hsep
  simp [parse_gw_param, hsplit, parse_value_digits hne hdig hlt, bind,
    Except.bind]

/-- C3: the bandwidth parser accepts a bare digit string as kbit/s, a
kbit-suffixed value as-is and an mbit-suffixed value multiplied by 1000; the
parser is invariant under lowercasing its input, which makes the suffix
matching case-insensitive (the suffix binders k and m range over arbitrary
case variants); when no up-value is supplied the derived up-value is down
divided by 5; and the concrete Server request with down 10000 kbit/s and no
up-value yields built attributes whose up-bandwidth is the down-bandwidth
divided by 5 and whose selection class is 0. -/
theorem gw_bandwidth_parsing (s ds k m : List Nat) (ifx : Nat)
    (hne : ds ≠ []) (hdig : ds.all isAsciiDigit = true)
    (hlt : digitsToNat ds < 4294967296)
    (hlt2 : digitsToNat ds * 1000 < 4294967296)
    (hk : k.map asciiLower = kbitBytes)
    (hm : m.map asciiLower = mbitBytes) :
    parse_value (s.map asciiLower) = parse_value s ∧
    parse_value ds = .ok (digitsToNat ds) ∧
    parse_value (ds ++ k) = .ok (digitsToNat ds) ∧
    parse_value (ds ++ m) = .ok (digitsToNat ds * 1000) ∧
    parse_gw_param .Server ds =
      .ok (some (digitsToNat ds), some (digitsToNat ds / 5), none) ∧
    parse_gw_param .Server [49, 48, 48, 48, 48] =
      .ok (some 10000, some 2000, none) ∧
    set_gateway_attrs .Server (some 10000) (some 2000) none ifx =
      .ok [(.BatadvAttrMeshIfindex, .U32 ifx), (.BatadvAttrGwMode, .U8 2),
           (.BatadvAttrGwBandwidthDown, .U32 100),
           (.BatadvAttrGwBandwidthUp, .U32 (100 / 5)),
           (.BatadvAttrGwSelClass, .U32 0)] := by
  refine ⟨parse_value_map_lower s, parse_value_digits hne hdig hlt, ?_, ?_,
    parse_gw_param_server_digits hne hdig hlt, by rfl, by rfl⟩
  · have h1 : (ds ++ k).map asciiLower = ds ++ kbitBytes := by
      rw [List.map_append, map_asciiLower_digits hdig, hk]
    calc parse_value (ds ++ k)
        = parse_value ((ds ++ k).map asciiLower) :=
          (parse_value_map_lower (ds ++ k)).symm
      _ = parse_value (ds ++ kbitBytes) := by rw [h1]
      _ = .ok (digitsToNat ds) := parse_value_kbit hne hdig hlt
  · have h1 : (ds ++ m).map asciiLower = ds ++ mbitBytes := by
      rw [List.map_append, map_asciiLower_digits hdig, hm]
    calc parse_value (ds ++ m)
        = parse_value ((ds ++ m).map asciiLower) :=
          (parse_value_map_lower (ds ++ m)).symm
      _ = parse_value (ds ++ mbitBytes) := by rw [h1]
      _ = .ok (digitsToNat ds * 1000) := parse_value_mbit hne hdig hlt hlt2

/-- Witness for C3 at concrete inputs: the digit string 5 followed by the
mixed-case suffix KBit parses to 5 kbit/s. -/
theorem gw_bandwidth_parsing_witness :
    parse_value [53, 75, 66, 105, 116] = .ok 5 :=
  (gw_bandwidth_parsing [] [53] [75, 66, 105, 116] [77, 98, 73, 84] 0
    (by decide) (by decide) (by decide) (by decide) (by decide)
    (by decide)).2.2.1

/-- VLAN id rendering from `src/cli/src/utils.rs` (`print_vid`): when the
high bit of the 16-bit field is set the low 12 bits are the VLAN id,
otherwise the result is -1 meaning no VLAN. -/
def print_vid (vid : Nat) : Int :=
  if vid &&& (1 <<< 15) ≠ 0 then ((vid &&& 0x0fff : Nat) : Int) else -1

/-- C7: for every 16-bit value, a set high bit yields the VLAN id given by
the low 12 bits, and a clear high bit yields no VLAN (-1) regardless of the
low bits; in particular high bit set with low bits 5 decodes to 5. -/
theorem vlan_decoding (v : Nat) (hv : v < 65536) :
    (32768 ≤ v → print_vid v = ((v % 4096 : Nat) : Int)) ∧
    (v < 32768 → print_vid v = -1) ∧
    print_vid 32773 = 5 := by
  have hsh : (1 <<< 15) = 32768 := by decide
  have hand : v &&& 32768 = (v.testBit 15).toNat * 32768 := by
    have h := Nat.and_two_pow v 15
    norm_num at h
    exact h
  have hmask : (v &&& 0x0fff : Nat) = v % 4096 := by
    have h := Nat.and_pow_two_sub_one_eq_mod v 12
    norm_num at h
    exact h
  have htb : v.testBit 15 = decide (v / 32768 % 2 = 1) := by
    have h := @Nat.testBit_to_div_mod 15 v
    norm_num at h
    exact h
  refine ⟨?_, ?_, by decide⟩
  · intro hge
    have hdiv : v / 32768 % 2 = 1 := by omega
    have hne : v &&& (1 <<< 15) ≠ 0 := by
      rw [hsh, hand, htb, hdiv]
      simp
    simp only [print_vid]
    rw [if_pos hne, hmask]
  · intro hlt
    have hdiv : v / 32768 = 0 := by omega
    have hz : ¬ v &&& (1 <<< 15) ≠ 0 := by
      rw [hsh, hand, htb, hdiv]
      simp
    simp only [print_vid]
    rw [if_neg hz]

/-- Witness for C7 at the concrete field values of the spec example. -/
theorem vlan_decoding_witness :
    print_vid 32773 = ((32773 % 4096 : Nat) : Int) ∧ print_vid 5 = -1 :=
  ⟨(vlan_decoding 32773 (by decide)).1 (by decide),
   (vlan_decoding 5 (by decide)).2.1 (by decide)⟩

/-- Payload encoding of `GenlAttrBuilder::add`
(`src/lib/src/netlink/attribute_builder.rs` lines 28 to 38): strings get a
terminating zero byte appended, byte blobs are copied verbatim, integers are
little-endian fixed-width. -/
def encodePayload : AttrValueForSend → List Nat
  | .String s => s ++ [0]
  | .Bytes b => b
  | .U32 v => [v % 256, v / 256 % 256, v / 65536 % 256, v / 16777216 % 256]
  | .U16 v => [v % 256, v / 256 % 256]
  | .U8 v => [v]

/-- MAC payload decoding, modelling `get_attr_payload_as::<[u8; 6]>` followed
by `MacAddr6::from`: exactly six bytes, returned verbatim. -/
def decodeMacPayload (b : List Nat) : Option (List Nat) :=
  if b.length = 6 then some b else none

theorem takeWhile_ne_zero_eq_self {b : List Nat} (h : ∀ c ∈ b, c ≠ 0) :
    b.takeWhile (fun x => x != 0) = b := by
  induction b with
  | nil => rfl
  | cons a t ih =>
      have ha : (a != 0) = true := by
        simp [bne_iff_ne]
        exact h a (List.mem_cons_self a t)
      simp [List.takeWhile_cons, ha,
        ih (fun c hc => h c (List.mem_cons_of_mem a hc))]

theorem trimNul_append_zero {s : List Nat} (h : ∀ c ∈ s, c ≠ 0) :
    trimNul (s ++ [0]) = s := by
  unfold trimNul
  induction s with
  | nil => rfl
  | cons a t ih =>
      have ha : (a != 0) = true := by
        simp [bne_iff_ne]
        exact h a (List.mem_cons_self a t)
      simp only [List.cons_append, List.takeWhile_cons, ha, if_true]
      rw [ih (fun c hc => h c (List.mem_cons_of_mem a hc))]

/-- C8: encoding a MAC address as a byte-blob attribute and decoding the
six-byte payload returns the original address; encoding a NUL-free string of
at most 31 bytes appends a terminating zero (so the encoding fits the
32-byte algorithm-name field) and null-trimming recovers the original
string; and null-trimming tolerates a missing trailing zero, returning a
NUL-free payload unchanged. -/
theorem codec_round_trip (mac s b : List Nat)
    (hmac : mac.length = 6)
    (hs : ∀ c ∈ s, c ≠ 0) (hlen : s.length ≤ 31)
    (hb : ∀ c ∈ b, c ≠ 0) :
    decodeMacPayload (encodePayload (.Bytes mac)) = some mac ∧
    encodePayload (.String s) = s ++ [0] ∧
    trimNul (encodePayload (.String s)) = s ∧
    (encodePayload (.String s)).length ≤ 32 ∧
    trimNul b = b := by
  refine ⟨?_, rfl, ?_, ?_, ?_⟩
  · simp [encodePayload, decodeMacPayload, hmac]
  · exact trimNul_append_zero hs
  · simp [encodePayload]
    omega
  · exact takeWhile_ne_zero_eq_self hb

/-- Witness for C8 at a concrete MAC address and the algorithm name
BATMAN_IV. -/
theorem codec_round_trip_witness :
    decodeMacPayload (encodePayload (.Bytes [1, 2, 3, 4, 5, 6])) =
      some [1, 2, 3, 4, 5, 6] ∧
    trimNul (encodePayload (.String [66, 65, 84, 77, 65, 78, 95, 73, 86])) =
      [66, 65, 84, 77, 65, 78, 95, 73, 86] :=
  have h := codec_round_trip [1, 2, 3, 4, 5, 6]
    [66, 65, 84, 77, 65, 78, 95, 73, 86]
    [66, 65, 84, 77, 65, 78, 95, 86] (by decide) (by decide) (by decide)
    (by decide)
  ⟨h.1, h.2.2.1⟩

/-- Transport request flags, from `neli::consts::nl::NlmF` as combined by
the link-lifecycle operations. -/
inductive NlFlag where
  | Request
  | Dump
  | Ack
  | Create
  | Excl
deriving DecidableEq, Repr

/-- Flags of the `Rtm::Setlink` request in `set_interface`
(`src/lib/src/commands/interface.rs` line 241): REQUEST and ACK. -/
def set_interface_flags : List NlFlag := [.Request, .Ack]

/-- Flags of the `Rtm::Newlink` request in `create_interface`
(`src/lib/src/commands/interface.rs` line 329): REQUEST, CREATE, EXCL and
ACK, giving exclusive-create semantics. -/
def create_interface_flags : List NlFlag := [.Request, .Create, .Excl, .Ack]

/-- Flags of the `Rtm::Dellink` request in `destroy_interface`
(`src/lib/src/commands/interface.rs` line 382): REQUEST and ACK. -/
def destroy_interface_flags : List NlFlag := [.Request, .Ack]

/-- The single reply envelope of an acknowledged request: an ACK or an ERROR
with an embedded code. -/
inductive AckEnvelope where
  | Ack
  | Error (code : Int)
deriving DecidableEq, Repr

/-- Modelled from the spec: the acknowledgment processing performed inside
the neli `NlRouter::send` call, which is a dependency and not part of this
repository under src - exactly one ACK or ERROR envelope is consumed, an
embedded code of zero means success, and any nonzero code is returned as a
transport failure carrying that code. -/
def process_ack : AckEnvelope → Except RobinError Unit
  | .Ack => .ok ()
  | .Error e => if e = 0 then .ok () else .error (.Netlink (netlinkErrMsg e))

/-- Outcome of `set_interface` on its single reply envelope
(`src/lib/src/commands/interface.rs` lines 239 to 247): a send failure is
mapped to a transport error, success to unit. -/
def set_interface (reply : AckEnvelope) : Except RobinError Unit :=
  match process_ack reply with
  | .ok _ => .ok ()
  | .error _ => .error (.Netlink "Failed to send netlink message")

/-- Outcome of `create_interface` on its single reply envelope
(`src/lib/src/commands/interface.rs` lines 327 to 335). -/
def create_interface (reply : AckEnvelope) : Except RobinError Unit :=
  match process_ack reply with
  | .ok _ => .ok ()
  | .error _ => .error (.Netlink "Failed to create mesh interface")

/-- Outcome of `destroy_interface` on its single reply envelope
(`src/lib/src/commands/interface.rs` lines 380 to 388). -/
def destroy_interface (reply : AckEnvelope) : Except RobinError Unit :=
  match process_ack reply with
  | .ok _ => .ok ()
  | .error _ => .error (.Netlink "Failed to destroy mesh interface")

/-- C9: every link-lifecycle mutation is request/acknowledge - its flag set
contains ACK and not DUMP, the create request additionally carries CREATE
and EXCL for exclusive-create semantics, a reply with code zero (or a plain
ACK) means success, and any nonzero kernel error code is surfaced as a
failure. -/
theorem link_lifecycle_request_ack (e : Int) (hne : e ≠ 0) :
    (set_interface_flags.contains .Ack = true ∧
     create_interface_flags.contains .Ack = true ∧
     destroy_interface_flags.contains .Ack = true ∧
     set_interface_flags.contains .Dump = false ∧
     create_interface_flags.contains .Dump = false ∧
     destroy_interface_flags.contains .Dump = false ∧
     create_interface_flags.contains .Create = true ∧
     create_interface_flags.contains .Excl = true) ∧
    (set_interface .Ack = .ok () ∧ set_interface (.Error 0) = .ok () ∧
     create_interface .Ack = .ok () ∧ create_interface (.Error 0) = .ok () ∧
     destroy_interface .Ack = .ok () ∧ destroy_interface (.Error 0) = .ok ()) ∧
    (set_interface (.Error e) =
        .error (.Netlink "Failed to send netlink message") ∧
     create_interface (.Error e) =
        .error (.Netlink "Failed to create mesh interface") ∧
     destroy_interface (.Error e) =
        .error (.Netlink "Failed to destroy mesh interface")) := by
  refine ⟨by decide, ⟨rfl, rfl, rfl, rfl, rfl, rfl⟩, ?_, ?_, ?_⟩ <;>
    simp [set_interface, create_interface, destroy_interface, process_ack, hne]

/-- Witness for C9 at the kernel code -17 (EEXIST), the error for creating a
mesh interface whose name already exists. -/
theorem link_lifecycle_request_ack_witness :
    create_interface (.Error (-17)) =
      .error (.Netlink "Failed to create mesh interface") :=
  (link_lifecycle_request_ack (-17) (by decide)).2.2.2.1

/-- Algorithm names collected by `get_available_routing_algos`
(`src/lib/src/commands/routing_algo.rs` lines 112 to 129): every reply
message with a payload contributes the null-trimmed payload of each
algorithm-name attribute; messages without a payload are skipped. -/
def collect_algos (msgs : List Envelope) : List (List Nat) :=
  msgs.flatMap fun m =>
    match m with
    | .Data attrs =>
        (attrs.filter (fun p => p.1 == attrCode .BatadvAttrAlgoName)).map
          (fun p => trimNul p.2)
    | _ => []

/-- Tail of `get_available_routing_algos`
(`src/lib/src/commands/routing_algo.rs` lines 131 to 137): an empty
collection becomes a not-found error, otherwise the collection is
returned. -/
def get_available_routing_algos (msgs : List Envelope) :
    Except RobinError (List (List Nat)) :=
  let algos := collect_algos msgs
  if algos.isEmpty then .error (.NotFound "No routing algorithms found")
  else .ok algos

/-- C10: when the routing-algorithms dump decodes zero algorithm names the
operation returns a not-found error, and an empty list is never a
successful outcome. -/
theorem routing_algos_empty_not_found (msgs : List Envelope) :
    (collect_algos msgs = [] →
      get_available_routing_algos msgs =
        .error (.NotFound "No routing algorithms found")) ∧
    (∀ l, get_available_routing_algos msgs = .ok l → l ≠ []) := by
  constructor
  · intro h
    simp [get_available_routing_algos, h]
  · intro l hok
    simp only [get_available_routing_algos] at hok
    split at hok
    · exact absurd hok (by simp)
    · rename_i hne
      simp only [Except.ok.injEq] at hok
      subst hok
      simpa [List.isEmpty_iff] using hne

/-- Witness for C10: a dump that ends immediately yields the not-found
error, and a dump carrying one algorithm-name attribute yields a nonempty
list. -/
theorem routing_algos_empty_not_found_witness :
    get_available_routing_algos [Envelope.Done] =
      .error (.NotFound "No routing algorithms found") ∧
    ([[66]] : List (List Nat)) ≠ [] :=
  ⟨(routing_algos_empty_not_found [Envelope.Done]).1 rfl,
   (routing_algos_empty_not_found [Envelope.Data [(2, [66, 0])]]).2 [[66]] rfl⟩

end Robin
